import Mathlib

/-
  Verification of the Remote Config client contract of
  `@react-native-firebase/config` (packages/config/lib/index.d.ts).

  The repository ships only type declarations: the fetch/cache/activate
  lifecycle has no executable implementation in the sources.  The
  definitions below are therefore a model of the configuration client
  contract, built faithfully from the specification document; every
  modelled definition says so in its doc comment.
-/

set_option autoImplicit false

namespace Config

/-- Modelled from the spec: a primitive configuration value
(`number | boolean | string`, §3 ConfigDefaults / ConfigValue).  The
implementation holding real values is in the native SDK, outside this
repository. -/
inductive CValue where
  | num (n : Int)
  | bool (b : Bool)
  | str (s : String)
deriving DecidableEq, Repr

/-- Modelled from the spec: the three-way value-source tag of ConfigValue
(`remote | default | static`). -/
inductive Source where
  | remote
  | default
  | static
deriving DecidableEq, Repr

/-- Modelled from the spec: the four-way fetch-status tag of
ConfigSettingsRead (`success | failure | no_fetch_yet | throttled`). -/
inductive FetchStatus where
  | success
  | failure
  | noFetchYet
  | throttled
deriving DecidableEq, Repr

/-- Modelled from the spec: the outcome reported by a single `fetch` call
(§4.1: `fetch(cacheExpirationSeconds?) → success | throttled | failure`). -/
inductive FetchOutcome where
  | success
  | throttled
  | failure
deriving DecidableEq, Repr

/-- Modelled from the spec: a single resolved configuration entry
(interface ConfigValue: a source tag and a possibly-absent value). -/
structure ConfigValue where
  source : Source
  value : Option CValue
deriving DecidableEq, Repr

/-- Modelled from the spec: the writable settings subset
(interface ConfigSettingsWrite: exactly the `isDeveloperModeEnabled`
field). -/
structure ConfigSettingsWrite where
  isDeveloperModeEnabled : Bool
deriving DecidableEq, Repr

/-- Modelled from the spec: the readable settings snapshot
(interface ConfigSettingsRead). -/
structure ConfigSettingsRead where
  lastFetchTime : Nat
  isDeveloperModeEnabled : Bool
  lastFetchStatus : FetchStatus
deriving DecidableEq, Repr

/-- Key lookup in an association-list mapping; first binding wins. -/
def lookupKey (k : String) : List (String × CValue) → Option CValue
  | [] => none
  | (k', v) :: rest => if k' = k then some v else lookupKey k rest

/-- The keys of an association-list mapping. -/
def keys (m : List (String × CValue)) : List String :=
  m.map Prod.fst

/-- Extensional equality of two association-list mappings: every key looks
up to the same value in both. -/
def mapEq (a b : List (String × CValue)) : Bool :=
  ( keys a ++ keys b).all fun k => decide (lookupKey k a = lookupKey k b)

/-- Character-list prefix test used for key filtering. -/
def charsPref : List Char → List Char → Bool
  | [], _ => true
  | _ :: _, [] => false
  | a :: as, b :: bs => a == b && charsPref as bs

/-- Test that the key `k` begins with the string `p`; an empty `p`
matches every key. -/
def startsWith (k p : String) : Bool :=
  charsPref p.data k.data

/-- Modelled from the spec: the ConfigClient state (§3: Active set, Fetched
set, Defaults, settings flags and fetch telemetry).  The stateful client
itself lives in the native SDK and is absent from this repository. -/
structure ConfigState where
  active : List (String × CValue)
  fetched : List (String × CValue)
  defaults : List (String × CValue)
  isDeveloperModeEnabled : Bool
  lastFetchTime : Nat
  lastFetchStatus : FetchStatus
  hadSuccessfulFetch : Bool
deriving DecidableEq, Repr

/-- Modelled from the spec: the freshly created client, before any fetch
or defaults were supplied. -/
def initialState : ConfigState :=
  { active := []
    fetched := []
    defaults := []
    isDeveloperModeEnabled := false
    lastFetchTime := 0
    lastFetchStatus := FetchStatus.noFetchYet
    hadSuccessfulFetch := false }

/-- Modelled from the spec: the throttling test of §4.1 — developer mode
off, a previous successful fetch exists, and it happened within
`cacheExpirationSeconds` of the current call. -/
def shouldThrottle (s : ConfigState) (now cacheExpirationSeconds : Nat) : Bool :=
  !s.isDeveloperModeEnabled && s.hadSuccessfulFetch &&
    decide (now - s.lastFetchTime < cacheExpirationSeconds)

/-- Modelled from the spec: `fetch(cacheExpirationSeconds?)` (§4.1), whose
implementation is in the native SDK.  `backend` is the remote backend
collaborator's answer: `none` is a network/backend failure, `some snap` a
successful snapshot.  Throttled calls never consult `backend`. -/
def fetch (s : ConfigState) (now cacheExpirationSeconds : Nat)
    (backend : Option (List (String × CValue))) : FetchOutcome × ConfigState :=
  if shouldThrottle s now cacheExpirationSeconds then
    (FetchOutcome.throttled, { s with lastFetchStatus := FetchStatus.throttled })
  else
    match backend with
    | none => (FetchOutcome.failure, { s with lastFetchStatus := FetchStatus.failure })
    | some snap =>
        (FetchOutcome.success,
          { s with
              fetched := snap
              lastFetchTime := now
              lastFetchStatus := FetchStatus.success
              hadSuccessfulFetch := true })

/-- Modelled from the spec: `activateFetched()` (§4.1), whose
implementation is in the native SDK.  Promotes the Fetched set into the
Active set; returns `true` exactly when that changes the active mapping. -/
def activateFetched (s : ConfigState) : Bool × ConfigState :=
  if mapEq s.fetched s.active then (false, s)
  else (true, { s with active := s.fetched })

/-- Modelled from the spec: `fetchAndActivate(cacheExpirationSeconds?)`
(§4.1), whose implementation is in the native SDK.  Written here as one
monolithic transition; its agreement with the fetch-then-activate
composition is proved below. -/
def fetchAndActivate (s : ConfigState) (now cacheExpirationSeconds : Nat)
    (backend : Option (List (String × CValue))) : Bool × ConfigState :=
  if shouldThrottle s now cacheExpirationSeconds then
    if mapEq s.fetched s.active then
      (false, { s with lastFetchStatus := FetchStatus.throttled })
    else
      (true, { s with lastFetchStatus := FetchStatus.throttled, active := s.fetched })
  else
    match backend with
    | none => (false, { s with lastFetchStatus := FetchStatus.failure })
    | some snap =>
        if mapEq snap s.active then
          (false,
            { s with
                fetched := snap
                lastFetchTime := now
                lastFetchStatus := FetchStatus.success
                hadSuccessfulFetch := true })
        else
          (true,
            { s with
                fetched := snap
                active := snap
                lastFetchTime := now
                lastFetchStatus := FetchStatus.success
                hadSuccessfulFetch := true })

/-- The spec's words for fetchAndActivate (§4.1 Composition): perform
fetch; if it did not fail call activateFetched and return its result; if
it failed return false with the post-fetch state. -/
def fetchThenActivate (s : ConfigState) (now cacheExpirationSeconds : Nat)
    (backend : Option (List (String × CValue))) : Bool × ConfigState :=
  match fetch s now cacheExpirationSeconds backend with
  | (FetchOutcome.failure, s') => (false, s')
  | (_, s') => activateFetched s'

/-- Modelled from the spec: `getValue(key)` (§4.1), whose implementation
is in the native SDK.  Resolution order: Active set, then Defaults, then
the STATIC fallback with an absent value. -/
def getValue (s : ConfigState) (k : String) : ConfigValue :=
  match lookupKey k s.active with
  | some v => { source := Source.remote, value := some v }
  | none =>
    match lookupKey k s.defaults with
    | some v => { source := Source.default, value := some v }
    | none => { source := Source.static, value := none }

/-- Modelled from the spec: `getKeysByPrefix(prefix?)` (§4.1), whose
implementation is in the native SDK: the deduplicated keys of
Active ∪ Defaults that start with the given prefix. -/
def getKeysByPrefix (s : ConfigState) (p : String) : List String :=
  (( keys s.active ++ keys s.defaults).filter fun k => startsWith k p).dedup

/-- Modelled from the spec: `setDefaults(defaults)` (§4.1), whose
implementation is in the native SDK: wholesale replacement of the
Defaults mapping. -/
def setDefaults (s : ConfigState) (d : List (String × CValue)) : ConfigState :=
  { s with defaults := d }

/-- Modelled from the spec: `getConfigSettings()` (§4.1), whose
implementation is in the native SDK: the read-only settings snapshot. -/
def getConfigSettings (s : ConfigState) : ConfigSettingsRead :=
  { lastFetchTime := s.lastFetchTime
    isDeveloperModeEnabled := s.isDeveloperModeEnabled
    lastFetchStatus := s.lastFetchStatus }

/-- Modelled from the spec: `setConfigSettings(settings)` (§4.1), whose
implementation is in the native SDK: applies the writable subset and
returns the resulting full snapshot. -/
def setConfigSettings (s : ConfigState) (w : ConfigSettingsWrite) :
    ConfigSettingsRead × ConfigState :=
  let s' := { s with isDeveloperModeEnabled := w.isDeveloperModeEnabled }
  (getConfigSettings s', s')

/-- The settings status a fetch outcome is recorded as. -/
def statusOfOutcome : FetchOutcome → FetchStatus
  | FetchOutcome.success => FetchStatus.success
  | FetchOutcome.throttled => FetchStatus.throttled
  | FetchOutcome.failure => FetchStatus.failure

/-- Modelled from the spec: one state-mutating client call, for reasoning
about whole operation sequences (§4.1 state machine). -/
inductive Op where
  | opFetch (now cacheExpirationSeconds : Nat) (backend : Option (List (String × CValue)))
  | opActivate
  | opFetchAndActivate (now cacheExpirationSeconds : Nat)
      (backend : Option (List (String × CValue)))
  | opSetDefaults (d : List (String × CValue))
  | opSetConfigSettings (w : ConfigSettingsWrite)
deriving DecidableEq, Repr

/-- Run one client call for its state effect. -/
def runOp (s : ConfigState) : Op → ConfigState
  | Op.opFetch now exp b => (fetch s now exp b).2
  | Op.opActivate => (activateFetched s).2
  | Op.opFetchAndActivate now exp b => (fetchAndActivate s now exp b).2
  | Op.opSetDefaults d => setDefaults s d
  | Op.opSetConfigSettings w => (setConfigSettings s w).2

/-- A call is well timed when the wall-clock instant it passes is not
before the recorded last fetch time (real time is monotone). -/
def opTimeOk (s : ConfigState) : Op → Bool
  | Op.opFetch now _ _ => decide (s.lastFetchTime ≤ now)
  | Op.opFetchAndActivate now _ _ => decide (s.lastFetchTime ≤ now)
  | _ => true

/-- A sequence of calls is well timed when each call is well timed in the
state it actually runs in. -/
def wellTimed (s : ConfigState) : List Op → Bool
  | [] => true
  | o :: os => opTimeOk s o && wellTimed (runOp s o) os

/-- Run a sequence of client calls. -/
def runOps (s : ConfigState) (ops : List Op) : ConfigState :=
  ops.foldl runOp s

/-- A key outside a mapping's key list looks up to nothing. -/
theorem lookupKey_eq_none {k : String} {m : List (String × CValue)}
    (h : k ∉ keys m) : lookupKey k m = none := by
  induction m with
  | nil => rfl
  | cons p rest ih =>
    have hk : p.1 ≠ k := by
      intro he
      exact h (by simp [ keys, he])
    have hr : k ∉ keys rest := by
      intro hm
      exact h (by simp [ keys] at hm ⊢; exact Or.inr hm)
    simp [lookupKey, hk, ih hr]

/-- The test `mapEq` is exactly pointwise equality of lookups. -/
theorem mapEq_iff (a b : List (String × CValue)) :
    mapEq a b = true ↔ ∀ k, lookupKey k a = lookupKey k b := by
  constructor
  · intro h k
    by_cases hk : k ∈ keys a ++ keys b
    · have := (List.all_eq_true.mp h) k hk
      exact of_decide_eq_true this
    · rw [List.mem_append] at hk
      push_neg at hk
      rw [lookupKey_eq_none hk.1, lookupKey_eq_none hk.2]
  · intro h
    exact List.all_eq_true.mpr fun k _ => decide_eq_true (h k)

/-- The test `mapEq` is reflexive. -/
theorem mapEq_refl (a : List (String × CValue)) : mapEq a a = true :=
  (mapEq_iff a a).mpr fun _ => rfl

/-- Two states with the same defaults whose active lookups differ at `k`
serve different ConfigValues at `k`. -/
theorem getValue_ne_of_active_ne {s₁ s₂ : ConfigState} {k : String}
    (hd : s₁.defaults = s₂.defaults)
    (h : lookupKey k s₁.active ≠ lookupKey k s₂.active) :
    getValue s₁ k ≠ getValue s₂ k := by
  unfold getValue
  rw [hd]
  cases h₁ : lookupKey k s₁.active with
  | none =>
    cases h₂ : lookupKey k s₂.active with
    | none => exact absurd (h₁.trans h₂.symm) h
    | some w =>
      cases lookupKey k s₂.defaults with
      | none => simp
      | some u => simp
  | some v =>
    cases h₂ : lookupKey k s₂.active with
    | none =>
      cases lookupKey k s₂.defaults with
      | none => simp
      | some u => simp
    | some w =>
      have hvw : v ≠ w := by
        intro he
        exact h (by rw [h₁, h₂, he])
      simp [hvw]

/-- One well-timed client call never decreases `lastFetchTime`. -/
theorem runOp_lastFetchTime_le (s : ConfigState) (o : Op)
    (h : opTimeOk s o = true) : s.lastFetchTime ≤ (runOp s o).lastFetchTime := by
  cases o with
  | opFetch now exp b =>
    have hle : s.lastFetchTime ≤ now := of_decide_eq_true h
    unfold runOp fetch
    by_cases ht : shouldThrottle s now exp = true
    · simp [ht]
    · cases b with
      | none => simp [ht]
      | some snap => simp [ht, hle]
  | opActivate =>
    unfold runOp activateFetched
    by_cases he : mapEq s.fetched s.active = true <;> simp [he]
  | opFetchAndActivate now exp b =>
    have hle : s.lastFetchTime ≤ now := of_decide_eq_true h
    unfold runOp fetchAndActivate
    by_cases ht : shouldThrottle s now exp = true
    · by_cases he : mapEq s.fetched s.active = true <;> simp [ht, he]
    · cases b with
      | none => simp [ht]
      | some snap =>
        by_cases he : mapEq snap s.active = true <;> simp [ht, he, hle]
  | opSetDefaults d =>
    simp [runOp, setDefaults]
  | opSetConfigSettings w =>
    simp [runOp, setConfigSettings, getConfigSettings]

/-- Along a well-timed sequence of calls `lastFetchTime` never decreases. -/
theorem runOps_lastFetchTime_le (ops : List Op) (s : ConfigState)
    (h : wellTimed s ops = true) : s.lastFetchTime ≤ (runOps s ops).lastFetchTime := by
  induction ops generalizing s with
  | nil => exact Nat.le_refl _
  | cons o os ih =>
    rw [wellTimed, Bool.and_eq_true] at h
    rcases h with ⟨h₁, h₂⟩
    calc s.lastFetchTime ≤ (runOp s o).lastFetchTime := runOp_lastFetchTime_le s o h₁
      _ ≤ (runOps (runOp s o) os).lastFetchTime := ih (runOp s o) h₂

/-- C1: every `fetch` call reports exactly one of the three outcomes
success, throttled or failure as its explicit result, and the reported
outcome is also recorded in `lastFetchStatus`; no outcome is silently
swallowed. -/
theorem fetch_reports_outcome (s : ConfigState) (now exp : Nat)
    (backend : Option (List (String × CValue))) :
    ((fetch s now exp backend).1 = FetchOutcome.success ∨
     (fetch s now exp backend).1 = FetchOutcome.throttled ∨
     (fetch s now exp backend).1 = FetchOutcome.failure) ∧
    (fetch s now exp backend).2.lastFetchStatus =
      statusOfOutcome (fetch s now exp backend).1 := by
  unfold fetch
  by_cases ht : shouldThrottle s now exp = true
  · simp [ht, statusOfOutcome]
  · cases backend with
    | none => simp [ht, statusOfOutcome]
    | some snap => simp [ht, statusOfOutcome]

/-- C2: `getValue` resolves Active set first, then Defaults, then the
STATIC fallback with an absent value; after a successful fetch followed by
`activateFetched` returning true, every key of the fetched snapshot is
served with source REMOTE and the fetched value. -/
theorem getValue_resolution (s : ConfigState) (k : String) (now exp : Nat)
    (snap : List (String × CValue)) :
    (lookupKey k s.active = none → lookupKey k s.defaults = none →
      getValue s k = { source := Source.static, value := none }) ∧
    (∀ v, lookupKey k s.active = none → lookupKey k s.defaults = some v →
      getValue s k = { source := Source.default, value := some v }) ∧
    ((fetch s now exp (some snap)).1 = FetchOutcome.success →
      (activateFetched (fetch s now exp (some snap)).2).1 = true →
      ∀ v, lookupKey k snap = some v →
        getValue (activateFetched (fetch s now exp (some snap)).2).2 k =
          { source := Source.remote, value := some v }) := by
  refine ⟨?_, ?_, ?_⟩
  · intro ha hd
    simp [getValue, ha, hd]
  · intro v ha hd
    simp [getValue, ha, hd]
  · intro hs hb v hv
    by_cases ht : shouldThrottle s now exp = true
    · simp [fetch, ht] at hs
    · by_cases hm : mapEq snap s.active = true
      · simp [fetch, ht, activateFetched, hm] at hb
      · simp [fetch, ht, activateFetched, hm, getValue, hv]

/-- C2 witness: with default `a = 1` and fetched snapshot `a = 2`, an
unknown key is STATIC, `a` is DEFAULT before and REMOTE after fetch plus
activation. -/
theorem getValue_resolution_witness :
    getValue { initialState with defaults := [("a", CValue.num 1)] } "b" =
      { source := Source.static, value := none } ∧
    getValue { initialState with defaults := [("a", CValue.num 1)] } "a" =
      { source := Source.default, value := some (CValue.num 1) } ∧
    getValue (activateFetched
        (fetch { initialState with defaults := [("a", CValue.num 1)] } 0 0
          (some [("a", CValue.num 2)])).2).2 "a" =
      { source := Source.remote, value := some (CValue.num 2) } :=
  ⟨(getValue_resolution { initialState with defaults := [("a", CValue.num 1)] }
      "b" 0 0 []).1 (by decide) (by decide),
   (getValue_resolution { initialState with defaults := [("a", CValue.num 1)] }
      "a" 0 0 []).2.1 (CValue.num 1) (by decide) (by decide),
   (getValue_resolution { initialState with defaults := [("a", CValue.num 1)] }
      "a" 0 0 [("a", CValue.num 2)]).2.2 (by decide) (by decide)
      (CValue.num 2) (by decide)⟩

/-- C3: `activateFetched` returns true exactly when activation changed at
least one served value, and a second call with no intervening fetch
returns false. -/
theorem activateFetched_change_iff (s : ConfigState) :
    ((activateFetched s).1 = true ↔
      ∃ k, getValue (activateFetched s).2 k ≠ getValue s k) ∧
    (activateFetched (activateFetched s).2).1 = false := by
  constructor
  · by_cases hm : mapEq s.fetched s.active = true
    · simp [activateFetched, hm]
    · have hne : ¬∀ k, lookupKey k s.fetched = lookupKey k s.active := by
        intro hall
        exact hm ((mapEq_iff _ _).mpr hall)
      push_neg at hne
      rcases hne with ⟨k, hk⟩
      have hs' : activateFetched s = (true, { s with active := s.fetched }) := by
        simp [activateFetched, hm]
      rw [hs']
      refine iff_of_true rfl ⟨k, ?_⟩
      exact getValue_ne_of_active_ne rfl hk
  · by_cases hm : mapEq s.fetched s.active = true
    · simp [activateFetched, hm]
    · simp [activateFetched, hm, mapEq_refl]

/-- C4: `fetchAndActivate` agrees with the composition that fetches and,
when the fetch did not fail, activates and returns the activation result;
on fetch failure it returns false and leaves the Active and Fetched sets
unchanged. -/
theorem fetchAndActivate_eq_composition (s : ConfigState) (now exp : Nat)
    (backend : Option (List (String × CValue))) :
    fetchAndActivate s now exp backend = fetchThenActivate s now exp backend ∧
    ((fetch s now exp backend).1 = FetchOutcome.failure →
      (fetchAndActivate s now exp backend).1 = false ∧
      (fetchAndActivate s now exp backend).2.active = s.active ∧
      (fetchAndActivate s now exp backend).2.fetched = s.fetched) := by
  constructor
  · unfold fetchAndActivate fetchThenActivate fetch
    by_cases ht : shouldThrottle s now exp = true
    · by_cases hm : mapEq s.fetched s.active = true <;>
        simp [ht, activateFetched, hm]
    · cases backend with
      | none => simp [ht]
      | some snap =>
        by_cases hm : mapEq snap s.active = true <;>
          simp [ht, activateFetched, hm]
  · intro hf
    by_cases ht : shouldThrottle s now exp = true
    · simp [fetch, ht] at hf
    · cases backend with
      | none => simp [fetchAndActivate, ht]
      | some snap => simp [fetch, ht] at hf

/-- C4 witness: on the initial state with a failing backend, the monolithic
transition matches the composition, returns false and keeps Active and
Fetched unchanged. -/
theorem fetchAndActivate_eq_composition_witness :
    fetchAndActivate initialState 0 0 none = fetchThenActivate initialState 0 0 none ∧
    (fetchAndActivate initialState 0 0 none).1 = false ∧
    (fetchAndActivate initialState 0 0 none).2.active = initialState.active ∧
    (fetchAndActivate initialState 0 0 none).2.fetched = initialState.fetched :=
  ⟨(fetchAndActivate_eq_composition initialState 0 0 none).1,
   (fetchAndActivate_eq_composition initialState 0 0 none).2 (by decide)⟩

/-- C5: with developer mode off and a previous successful fetch within the
cache window, `fetch` reports THROTTLED with only `lastFetchStatus`
touched and never consults the backend; a cache expiration of 0 always
performs the real fetch. -/
theorem fetch_throttles_and_zero_forces (s : ConfigState) (now exp : Nat)
    (backend : Option (List (String × CValue))) :
    (s.isDeveloperModeEnabled = false → s.hadSuccessfulFetch = true →
      now - s.lastFetchTime < exp →
      fetch s now exp backend =
        (FetchOutcome.throttled, { s with lastFetchStatus := FetchStatus.throttled })) ∧
    (∀ snap, (fetch s now 0 (some snap)).1 = FetchOutcome.success ∧
      (fetch s now 0 (some snap)).2.fetched = snap) ∧
    (fetch s now 0 none).1 = FetchOutcome.failure := by
  have hz : shouldThrottle s now 0 = false := by
    simp [shouldThrottle]
  refine ⟨?_, ?_, ?_⟩
  · intro hdev hsucc hlt
    have ht : shouldThrottle s now exp = true := by
      simp [shouldThrottle, hdev, hsucc, hlt]
    simp [fetch, ht]
  · intro snap
    simp [fetch, hz]
  · simp [fetch, hz]

/-- C5 witness: 10 seconds after a successful fetch at time 100, a
`fetch(300)` is throttled with the Fetched set untouched, while a
`fetch(0)` succeeds immediately. -/
theorem fetch_throttles_and_zero_forces_witness :
    fetch { initialState with hadSuccessfulFetch := true, lastFetchTime := 100 } 110 300
        (some [("x", CValue.str "v")]) =
      (FetchOutcome.throttled,
        { initialState with
            hadSuccessfulFetch := true
            lastFetchTime := 100
            lastFetchStatus := FetchStatus.throttled }) ∧
    (fetch { initialState with hadSuccessfulFetch := true, lastFetchTime := 100 } 110 0
        (some [("x", CValue.str "v")])).1 = FetchOutcome.success :=
  ⟨(fetch_throttles_and_zero_forces
      { initialState with hadSuccessfulFetch := true, lastFetchTime := 100 } 110 300
      (some [("x", CValue.str "v")])).1 rfl rfl (by decide),
   ((fetch_throttles_and_zero_forces
      { initialState with hadSuccessfulFetch := true, lastFetchTime := 100 } 110 0
      (some [("x", CValue.str "v")])).2.1 [("x", CValue.str "v")]).1⟩

/-- C6: when the backend fails on a non-throttled call, `fetch` reports
FAILURE, records it in `lastFetchStatus`, and leaves every other state
component — in particular the Fetched set and `lastFetchTime` — exactly
as before. -/
theorem fetch_failure_frame (s : ConfigState) (now exp : Nat)
    (h : shouldThrottle s now exp = false) :
    fetch s now exp none =
      (FetchOutcome.failure, { s with lastFetchStatus := FetchStatus.failure }) ∧
    (fetch s now exp none).2.fetched = s.fetched ∧
    (fetch s now exp none).2.lastFetchTime = s.lastFetchTime ∧
    (fetch s now exp none).2.active = s.active ∧
    (fetch s now exp none).2.defaults = s.defaults ∧
    (fetch s now exp none).2.hadSuccessfulFetch = s.hadSuccessfulFetch := by
  simp [fetch, h]

/-- C6 witness: a failing backend on the initial state reports FAILURE and
changes nothing but the recorded status. -/
theorem fetch_failure_frame_witness :
    fetch initialState 0 0 none =
      (FetchOutcome.failure, { initialState with lastFetchStatus := FetchStatus.failure }) ∧
    (fetch initialState 0 0 none).2.fetched = initialState.fetched ∧
    (fetch initialState 0 0 none).2.lastFetchTime = initialState.lastFetchTime ∧
    (fetch initialState 0 0 none).2.active = initialState.active ∧
    (fetch initialState 0 0 none).2.defaults = initialState.defaults ∧
    (fetch initialState 0 0 none).2.hadSuccessfulFetch = initialState.hadSuccessfulFetch :=
  fetch_failure_frame initialState 0 0 (by decide)

/-- C7: `setDefaults` replaces the Defaults mapping wholesale without
touching the Active or Fetched sets; a key present only in the replaced
defaults afterwards resolves to the STATIC fallback, as in the
`setDefaults({a:1})` then `setDefaults({b:2})` scenario. -/
theorem setDefaults_wholesale (s : ConfigState) (d : List (String × CValue)) (k : String) :
    (setDefaults s d).defaults = d ∧
    (setDefaults s d).active = s.active ∧
    (setDefaults s d).fetched = s.fetched ∧
    (lookupKey k d = none → lookupKey k s.active = none →
      getValue (setDefaults s d) k = { source := Source.static, value := none }) ∧
    (lookupKey "a" s.active = none →
      getValue (setDefaults (setDefaults s [("a", CValue.num 1)]) [("b", CValue.num 2)]) "a" =
        { source := Source.static, value := none }) := by
  refine ⟨rfl, rfl, rfl, ?_, ?_⟩
  · intro hd ha
    simp [getValue, setDefaults, hd, ha]
  · intro ha
    have hb : lookupKey "a" [("b", CValue.num 2)] = none := by decide
    simp [getValue, setDefaults, ha, hb]

/-- C7 witness: starting from the initial state, the old default for `a`
is dropped by the second `setDefaults`, and a key in no mapping is
STATIC. -/
theorem setDefaults_wholesale_witness :
    getValue (setDefaults (setDefaults initialState [("a", CValue.num 1)])
        [("b", CValue.num 2)]) "a" =
      { source := Source.static, value := none } ∧
    getValue (setDefaults initialState []) "z" =
      { source := Source.static, value := none } :=
  ⟨(setDefaults_wholesale initialState [] "z").2.2.2.2 (by decide),
   (setDefaults_wholesale initialState [] "z").2.2.2.1 (by decide) (by decide)⟩

/-- C8: for every prefix, `getKeysByPrefix` contains exactly the keys of
Active ∪ Defaults starting with that prefix, holds no duplicates, and
with an empty prefix returns all keys of that union. -/
theorem getKeysByPrefix_spec (s : ConfigState) (p k : String) :
    (k ∈ getKeysByPrefix s p ↔
      ((k ∈ keys s.active ∨ k ∈ keys s.defaults) ∧ startsWith k p = true)) ∧
    ( getKeysByPrefix s p).Nodup ∧
    (k ∈ getKeysByPrefix s "" ↔ (k ∈ keys s.active ∨ k ∈ keys s.defaults)) := by
  have hmem : ∀ q : String, k ∈ getKeysByPrefix s q ↔
      ((k ∈ keys s.active ∨ k ∈ keys s.defaults) ∧ startsWith k q = true) := by
    intro q
    unfold getKeysByPrefix
    rw [List.mem_dedup, List.mem_filter, List.mem_append]
  have he : startsWith k "" = true := rfl
  refine ⟨hmem p, List.nodup_dedup _, ?_⟩
  rw [hmem ""]
  simp [he]

/-- C9: the time of a successfully completed fetch is recorded in
`lastFetchTime`, no other operation moves it, and along every well-timed
sequence of client calls it is monotonically non-decreasing. -/
theorem lastFetchTime_records_and_monotone (s : ConfigState) (ops : List Op) :
    (∀ now exp snap, (fetch s now exp (some snap)).1 = FetchOutcome.success →
      (fetch s now exp (some snap)).2.lastFetchTime = now) ∧
    (activateFetched s).2.lastFetchTime = s.lastFetchTime ∧
    (∀ d, (setDefaults s d).lastFetchTime = s.lastFetchTime) ∧
    (∀ w, (setConfigSettings s w).2.lastFetchTime = s.lastFetchTime) ∧
    (wellTimed s ops = true → s.lastFetchTime ≤ (runOps s ops).lastFetchTime) := by
  refine ⟨?_, ?_, fun _ => rfl, fun _ => rfl, runOps_lastFetchTime_le ops s⟩
  · intro now exp snap hs
    by_cases ht : shouldThrottle s now exp = true
    · simp [fetch, ht] at hs
    · simp [fetch, ht]
  · unfold activateFetched
    by_cases hm : mapEq s.fetched s.active = true <;> simp [hm]

/-- C9 witness: a successful fetch at time 5 records 5, and a well-timed
fetch, activate, fetch sequence never decreases `lastFetchTime`. -/
theorem lastFetchTime_records_and_monotone_witness :
    (fetch initialState 5 0 (some [("a", CValue.num 1)])).2.lastFetchTime = 5 ∧
    initialState.lastFetchTime ≤
      (runOps initialState
        [Op.opFetch 5 0 (some [("a", CValue.num 1)]), Op.opActivate,
          Op.opFetch 9 0 none]).lastFetchTime :=
  ⟨(lastFetchTime_records_and_monotone initialState []).1 5 0
      [("a", CValue.num 1)] (by decide),
   (lastFetchTime_records_and_monotone initialState
      [Op.opFetch 5 0 (some [("a", CValue.num 1)]), Op.opActivate,
        Op.opFetch 9 0 none]).2.2.2.2 (by decide)⟩

/-- C10: `setConfigSettings` writes exactly the developer-mode flag,
leaves `lastFetchTime`, `lastFetchStatus` and all config sets unchanged,
and the snapshot it returns equals what `getConfigSettings` reads from the
resulting state. -/
theorem setConfigSettings_frame (s : ConfigState) (w : ConfigSettingsWrite) :
    (setConfigSettings s w).2.lastFetchTime = s.lastFetchTime ∧
    (setConfigSettings s w).2.lastFetchStatus = s.lastFetchStatus ∧
    (setConfigSettings s w).2.active = s.active ∧
    (setConfigSettings s w).2.fetched = s.fetched ∧
    (setConfigSettings s w).2.defaults = s.defaults ∧
    (setConfigSettings s w).2.hadSuccessfulFetch = s.hadSuccessfulFetch ∧
    (setConfigSettings s w).2.isDeveloperModeEnabled = w.isDeveloperModeEnabled ∧
    (setConfigSettings s w).1 = getConfigSettings (setConfigSettings s w).2 :=
  ⟨rfl, rfl, rfl, rfl, rfl, rfl, rfl, rfl⟩

end Config
